import Mathlib

/-!
Verification development for the sqlrepo filter-conversion and
statement-construction core (files `sqlrepo/filters/operators.py`,
`sqlrepo/filters/guards.py`, `sqlrepo/filters/schemas.py`,
`sqlrepo/filters/converters.py`, and the bulk soft-delete path of
`sqlrepo/queries.py`).

The embedding is shallow: Python values become `PyVal`, SQLAlchemy
`ColumnElement[bool]` predicates become the `SQLAlchemyFilter` AST,
Python exceptions become the `PyError` sum carried in `Except`, and
Python dicts (which preserve insertion order) become ordered
association lists.  Field references are the resolved attribute names.
-/

/-- Embedding of the Python values that flow through the filter layer:
`None`, booleans, integers, strings and sequences (lists/tuples/sets). -/
inductive PyVal where
  | none : PyVal
  | bool (b : Bool) : PyVal
  | int (n : Int) : PyVal
  | str (s : String) : PyVal
  | list (xs : List PyVal) : PyVal

/-- Embedding of the Python exceptions that the filter layer can raise:
`FilterError` (sqlrepo/exc.py), plus the builtin `TypeError`,
`ValueError`, `AttributeError` and `KeyError`. -/
inductive PyError where
  | filterError (msg : String)
  | typeError (msg : String)
  | valueError (msg : String)
  | attributeError (nm : String)
  | keyError (key : String)

/-- Embedding of SQLAlchemy `ColumnElement[bool]` values as the syntax
tree of predicates the operator library builds; each constructor records
one SQLAlchemy expression-building call. -/
inductive SQLAlchemyFilter where
  | eq (f : String) (v : PyVal)
  | gt (f : String) (v : PyVal)
  | lt (f : String) (v : PyVal)
  | ge (f : String) (v : PyVal)
  | le (f : String) (v : PyVal)
  | is (f : String) (v : PyVal)
  | isNot (f : String) (v : PyVal)
  | between (f : String) (lo hi : PyVal)
  | sqlFalse
  | inList (f : String) (vs : List PyVal)
  | like (f : String) (pattern : PyVal)
  | ilike (f : String) (pattern : PyVal)
  | castDateEq (f : String) (v : PyVal)
  | castTimeEq (f : String) (v : PyVal)
  | extractEq (part : String) (f : String) (v : PyVal)
  | regexpMatch (f : String) (v : PyVal)
  | lowerRegexpMatch (f : String) (v : PyVal)

/-- Elements of a Python value viewed as a sequence: lists yield their
elements, strings yield their one-character substrings, everything else
has no length (so `len` raises `TypeError` on it). -/
def seqElems : PyVal → Option (List PyVal)
  | PyVal.list xs => Option.some xs
  | PyVal.str s => Option.some (s.toList.map (fun c => PyVal.str (String.mk [c])))
  | _ => Option.none

/-- Python truthiness of an embedded value. -/
def pyTruthy : PyVal → Bool
  | PyVal.none => false
  | PyVal.bool b => b
  | PyVal.int n => decide (n ≠ 0)
  | PyVal.str s => decide (s ≠ "")
  | PyVal.list xs => !xs.isEmpty

/-- Embedding of a SQLAlchemy declarative model as seen by the filter
layer: the set of valid (queryable) field names, including hybrid
properties and hybrid methods (`get_valid_field_names` returns a set of
names; we keep it as a list and use membership only). -/
structure DeclarativeBase where
  fields : List String

/-- Embedding of `get_valid_field_names` (sqlrepo/utils.py): the set of
queryable field names of the model. -/
def get_valid_field_names (model : DeclarativeBase) : List String :=
  model.fields

/-- Modelled from the spec: `get_sqlalchemy_attribute` (imported by
sqlrepo/filters/converters.py from sqlrepo/utils.py) is not under src,
where only `get_sqlalchemy_field` appears.  Per the spec, the Model
Metadata Resolver resolves a field name to a typed reference; `getattr`
on a name the model does not have raises `AttributeError`. -/
def get_sqlalchemy_attribute (model : DeclarativeBase) (field_name : String) :
    Except PyError String :=
  if (get_valid_field_names model).contains field_name then Except.ok field_name
  else Except.error (PyError.attributeError field_name)

/-- Result type of an operator function: a built predicate or a raised
Python exception. -/
abbrev OperatorResult := Except PyError SQLAlchemyFilter

/-- Embedding of `operators.is_`: `a.is_(b)`. -/
def is_ (a : String) (b : PyVal) : OperatorResult :=
  Except.ok (SQLAlchemyFilter.is a b)

/-- Embedding of `operators.is_not`: `a.is_not(b)`. -/
def is_not (a : String) (b : PyVal) : OperatorResult :=
  Except.ok (SQLAlchemyFilter.isNot a b)

/-- Embedding of `operators.between`: if `len(b) != 2` return the
always-false predicate `false()`, else `a.between(*b)`; `len` of a
non-sequence raises `TypeError`. -/
def between (a : String) (b : PyVal) : OperatorResult :=
  match seqElems b with
  | Option.none => Except.error (PyError.typeError "object has no len")
  | Option.some [lo, hi] => Except.ok (SQLAlchemyFilter.between a lo hi)
  | Option.some _ => Except.ok SQLAlchemyFilter.sqlFalse

/-- Embedding of `operators.contains`: `a.in_(b)` over a sequence. -/
def contains (a : String) (b : PyVal) : OperatorResult :=
  match seqElems b with
  | Option.none => Except.error (PyError.typeError "argument is not iterable")
  | Option.some xs => Except.ok (SQLAlchemyFilter.inList a xs)

/-- Embedding of `operators.django_exact`: `a.is_(None)` when the value
is `None`, else `a == b`. -/
def django_exact (a : String) (b : PyVal) : OperatorResult :=
  match b with
  | PyVal.none => Except.ok (SQLAlchemyFilter.is a PyVal.none)
  | _ => Except.ok (SQLAlchemyFilter.eq a b)

/-- Embedding of `operators.django_iexact`: `a.is_(None)` for `None`,
`a.ilike(b)` for a string value (the pattern is `b` itself, unchanged),
`a == b` otherwise. -/
def django_iexact (a : String) (b : PyVal) : OperatorResult :=
  match b with
  | PyVal.none => Except.ok (SQLAlchemyFilter.is a PyVal.none)
  | PyVal.str s => Except.ok (SQLAlchemyFilter.ilike a (PyVal.str s))
  | _ => Except.ok (SQLAlchemyFilter.eq a b)

/-- Embedding of `operators.django_contains`: wrap a string value in `%`
wildcards, then `a.like(b)`. -/
def django_contains (a : String) (b : PyVal) : OperatorResult :=
  match b with
  | PyVal.str s => Except.ok (SQLAlchemyFilter.like a (PyVal.str ("%" ++ s ++ "%")))
  | _ => Except.ok (SQLAlchemyFilter.like a b)

/-- Embedding of `operators.django_icontains`. -/
def django_icontains (a : String) (b : PyVal) : OperatorResult :=
  match b with
  | PyVal.str s => Except.ok (SQLAlchemyFilter.ilike a (PyVal.str ("%" ++ s ++ "%")))
  | _ => Except.ok (SQLAlchemyFilter.ilike a b)

/-- Embedding of `operators.django_in`: `a.in_(b)`. -/
def django_in (a : String) (b : PyVal) : OperatorResult :=
  match seqElems b with
  | Option.none => Except.error (PyError.typeError "argument is not iterable")
  | Option.some xs => Except.ok (SQLAlchemyFilter.inList a xs)

/-- Embedding of `operators.django_startswith`. -/
def django_startswith (a : String) (b : PyVal) : OperatorResult :=
  match b with
  | PyVal.str s => Except.ok (SQLAlchemyFilter.like a (PyVal.str (s ++ "%")))
  | _ => Except.ok (SQLAlchemyFilter.like a b)

/-- Embedding of `operators.django_istartswith`. -/
def django_istartswith (a : String) (b : PyVal) : OperatorResult :=
  match b with
  | PyVal.str s => Except.ok (SQLAlchemyFilter.ilike a (PyVal.str (s ++ "%")))
  | _ => Except.ok (SQLAlchemyFilter.ilike a b)

/-- Embedding of `operators.django_endswith`. -/
def django_endswith (a : String) (b : PyVal) : OperatorResult :=
  match b with
  | PyVal.str s => Except.ok (SQLAlchemyFilter.like a (PyVal.str ("%" ++ s)))
  | _ => Except.ok (SQLAlchemyFilter.like a b)

/-- Embedding of `operators.django_iendswith`. -/
def django_iendswith (a : String) (b : PyVal) : OperatorResult :=
  match b with
  | PyVal.str s => Except.ok (SQLAlchemyFilter.ilike a (PyVal.str ("%" ++ s)))
  | _ => Except.ok (SQLAlchemyFilter.ilike a b)

/-- Embedding of `operators.django_range`: delegates to `between`. -/
def django_range (a : String) (b : PyVal) : OperatorResult :=
  between a b

/-- Embedding of `operators.django_date`: `cast(a, Date) == b`. -/
def django_date (a : String) (b : PyVal) : OperatorResult :=
  Except.ok (SQLAlchemyFilter.castDateEq a b)

/-- Embedding of `operators.django_year`. -/
def django_year (a : String) (b : PyVal) : OperatorResult :=
  Except.ok (SQLAlchemyFilter.extractEq "year" a b)

/-- Embedding of `operators.django_iso_year`. -/
def django_iso_year (a : String) (b : PyVal) : OperatorResult :=
  Except.ok (SQLAlchemyFilter.extractEq "isoyear" a b)

/-- Embedding of `operators.django_month`. -/
def django_month (a : String) (b : PyVal) : OperatorResult :=
  Except.ok (SQLAlchemyFilter.extractEq "month" a b)

/-- Embedding of `operators.django_day`. -/
def django_day (a : String) (b : PyVal) : OperatorResult :=
  Except.ok (SQLAlchemyFilter.extractEq "day" a b)

/-- Embedding of `operators.django_week`. -/
def django_week (a : String) (b : PyVal) : OperatorResult :=
  Except.ok (SQLAlchemyFilter.extractEq "week" a b)

/-- Embedding of `operators.django_week_day`: extracts `dow`. -/
def django_week_day (a : String) (b : PyVal) : OperatorResult :=
  Except.ok (SQLAlchemyFilter.extractEq "dow" a b)

/-- Embedding of `operators.django_iso_week_day`: extracts `isodow`. -/
def django_iso_week_day (a : String) (b : PyVal) : OperatorResult :=
  Except.ok (SQLAlchemyFilter.extractEq "isodow" a b)

/-- Embedding of `operators.django_quarter`. -/
def django_quarter (a : String) (b : PyVal) : OperatorResult :=
  Except.ok (SQLAlchemyFilter.extractEq "quarter" a b)

/-- Embedding of `operators.django_time`: `cast(a, Time) == b`. -/
def django_time (a : String) (b : PyVal) : OperatorResult :=
  Except.ok (SQLAlchemyFilter.castTimeEq a b)

/-- Embedding of `operators.django_hour`. -/
def django_hour (a : String) (b : PyVal) : OperatorResult :=
  Except.ok (SQLAlchemyFilter.extractEq "hour" a b)

/-- Embedding of `operators.django_minute`. -/
def django_minute (a : String) (b : PyVal) : OperatorResult :=
  Except.ok (SQLAlchemyFilter.extractEq "minute" a b)

/-- Embedding of `operators.django_second`. -/
def django_second (a : String) (b : PyVal) : OperatorResult :=
  Except.ok (SQLAlchemyFilter.extractEq "second" a b)

/-- Embedding of `operators.django_isnull`: `a.is_(None)` when the flag
is truthy, `a.is_not(None)` otherwise. -/
def django_isnull (a : String) (b : PyVal) : OperatorResult :=
  if pyTruthy b then Except.ok (SQLAlchemyFilter.is a PyVal.none)
  else Except.ok (SQLAlchemyFilter.isNot a PyVal.none)

/-- Embedding of `operators.django_regex`: `a.regexp_match(b)`. -/
def django_regex (a : String) (b : PyVal) : OperatorResult :=
  Except.ok (SQLAlchemyFilter.regexpMatch a b)

/-- Embedding of `operators.django_iregex`:
`func.lower(a).regexp_match(b.lower())`; calling `.lower()` on a
non-string raises `AttributeError`. -/
def django_iregex (a : String) (b : PyVal) : OperatorResult :=
  match b with
  | PyVal.str s => Except.ok (SQLAlchemyFilter.lowerRegexpMatch a (PyVal.str s.toLower))
  | _ => Except.error (PyError.attributeError "lower")

/-- Embedding of Python `operator.eq` applied to a column and a value. -/
def builtin_operator.eq (a : String) (b : PyVal) : OperatorResult :=
  Except.ok (SQLAlchemyFilter.eq a b)

/-- Embedding of Python `operator.gt` applied to a column and a value. -/
def builtin_operator.gt (a : String) (b : PyVal) : OperatorResult :=
  Except.ok (SQLAlchemyFilter.gt a b)

/-- Embedding of Python `operator.lt` applied to a column and a value. -/
def builtin_operator.lt (a : String) (b : PyVal) : OperatorResult :=
  Except.ok (SQLAlchemyFilter.lt a b)

/-- Embedding of Python `operator.ge` applied to a column and a value. -/
def builtin_operator.ge (a : String) (b : PyVal) : OperatorResult :=
  Except.ok (SQLAlchemyFilter.ge a b)

/-- Embedding of Python `operator.le` applied to a column and a value. -/
def builtin_operator.le (a : String) (b : PyVal) : OperatorResult :=
  Except.ok (SQLAlchemyFilter.le a b)

/-- Embedding of a Python filter dict (`FilterDict = dict[str, Any]`):
an insertion-ordered association list with string keys. -/
abbrev FilterDict := List (String × PyVal)

/-- Type of an entry of a converter lookup mapping
(`Callable[[Any, Any], SQLAlchemyFilter]` in the source, with raised
exceptions made explicit). -/
abbrev OperatorFunc := String → PyVal → OperatorResult

/-- Embedding of `schemas.AdvancedOperatorsSet`: the closed set of
operator tags the advanced strategy validates against. -/
def AdvancedOperatorsSet : List String :=
  ["==", ">", "<", ">=", "<=", "between", "contains"]

/-- Embedding of `guards.is_dict_simple_filter_dict`: the dict must have
a string under the key field, some value under the key value, and, if
the key operator is present, its value must lie in
`AdvancedOperatorsSet`.  Keys beyond these three are not inspected. -/
def is_dict_simple_filter_dict (value : FilterDict) : Bool :=
  match value.lookup "field" with
  | Option.some (PyVal.str _) =>
    match value.lookup "value" with
    | Option.none => false
    | Option.some _ =>
      match value.lookup "operator" with
      | Option.none => true
      | Option.some (PyVal.str op) => AdvancedOperatorsSet.contains op
      | Option.some _ => false
  | _ => false

/-- One element of the sequence accepted by `convert`: either a raw
SQLAlchemy predicate (passed through unchanged) or a filter dict. -/
inductive FilterItem where
  | raw (p : SQLAlchemyFilter)
  | dict (d : FilterDict)

/-- The full input shape of `BaseFilterConverter.convert`: `None`, a
single raw predicate, a single filter dict, or a sequence of both. -/
inductive FilterInput where
  | nothing
  | raw (p : SQLAlchemyFilter)
  | dict (d : FilterDict)
  | seq (items : List FilterItem)

/-- Message of the internal-contract violation `FilterError` raised by
`_convert_filter` when invoked on data that failed validation. -/
def neverSituationMsg : String :=
  "Never situation. Do not use _convert_filter method directly!"

/-- Loop body of `BaseFilterConverter.convert` over the (already
wrapped) sequence of filters: raw predicates pass through, dicts are
validated then translated; a failed validation raises `FilterError`. -/
def convert_with (is_valid : DeclarativeBase → FilterDict → Bool × String)
    (conv : DeclarativeBase → FilterDict → Except PyError (List SQLAlchemyFilter))
    (model : DeclarativeBase) : List FilterItem → Except PyError (List SQLAlchemyFilter)
  | [] => Except.ok []
  | FilterItem.raw p :: rest =>
    match convert_with is_valid conv model rest with
    | Except.error e => Except.error e
    | Except.ok ps => Except.ok (p :: ps)
  | FilterItem.dict d :: rest =>
    match is_valid model d with
    | (true, _) =>
      match conv model d with
      | Except.error e => Except.error e
      | Except.ok ps =>
        match convert_with is_valid conv model rest with
        | Except.error e => Except.error e
        | Except.ok rest_ps => Except.ok (ps ++ rest_ps)
    | (false, message) =>
      Except.error (PyError.filterError (String.append "Filter with data is not valid: " message))

/-- Embedding of `BaseFilterConverter.convert`: `None` yields the empty
result; a single dict or raw predicate is wrapped into a one-element
sequence (dicts and column elements are not `Sequence` instances). -/
def base_convert (is_valid : DeclarativeBase → FilterDict → Bool × String)
    (conv : DeclarativeBase → FilterDict → Except PyError (List SQLAlchemyFilter))
    (model : DeclarativeBase) (filters : FilterInput) :
    Except PyError (List SQLAlchemyFilter) :=
  match filters with
  | FilterInput.nothing => Except.ok []
  | FilterInput.raw p => convert_with is_valid conv model [FilterItem.raw p]
  | FilterInput.dict d => convert_with is_valid conv model [FilterItem.dict d]
  | FilterInput.seq items => convert_with is_valid conv model items

/-- Embedding of `SimpleFilterConverter._is_filter_valid`: every key of
the dict must be a recognized field name; the first unknown key fails
the validation. -/
def SimpleFilterConverter.is_filter_valid (model : DeclarativeBase) :
    FilterDict → Bool × String
  | [] => (true, "")
  | (field_name, _) :: rest =>
    if (get_valid_field_names model).contains field_name then
      SimpleFilterConverter.is_filter_valid model rest
    else (false, String.append "Model or select statement has no field " field_name)

/-- Embedding of `SimpleFilterConverter._convert_filter`: one
`operator.eq` predicate per key-value pair, in dict order. -/
def SimpleFilterConverter.convert_filter (model : DeclarativeBase) :
    FilterDict → Except PyError (List SQLAlchemyFilter)
  | [] => Except.ok []
  | (field_name, value) :: rest =>
    match get_sqlalchemy_attribute model field_name with
    | Except.error e => Except.error e
    | Except.ok sqlalchemy_field =>
      match builtin_operator.eq sqlalchemy_field value with
      | Except.error e => Except.error e
      | Except.ok p =>
        match SimpleFilterConverter.convert_filter model rest with
        | Except.error e => Except.error e
        | Except.ok ps => Except.ok (p :: ps)

/-- Embedding of `SimpleFilterConverter.convert`. -/
def SimpleFilterConverter.convert (model : DeclarativeBase) (filters : FilterInput) :
    Except PyError (List SQLAlchemyFilter) :=
  base_convert SimpleFilterConverter.is_filter_valid SimpleFilterConverter.convert_filter
    model filters

/-- Embedding of `AdvancedOperatorFilterConverter.lookup_mapping`, keyed
by the operator tag (dict lookup on a missing key raises `KeyError`,
modelled by the `Option.none` result). -/
def AdvancedOperatorFilterConverter.lookup_mapping : String → Option OperatorFunc
  | "==" => Option.some builtin_operator.eq
  | ">" => Option.some builtin_operator.gt
  | "<" => Option.some builtin_operator.lt
  | ">=" => Option.some builtin_operator.ge
  | "<=" => Option.some builtin_operator.le
  | "is" => Option.some is_
  | "is_not" => Option.some is_not
  | "between" => Option.some between
  | "contains" => Option.some contains
  | _ => Option.none

/-- Embedding of `AdvancedOperatorFilterConverter._is_filter_valid`: the
dict must pass `is_dict_simple_filter_dict` and its field must be a
recognized field name. -/
def AdvancedOperatorFilterConverter.is_filter_valid (model : DeclarativeBase)
    (filter_ : FilterDict) : Bool × String :=
  if is_dict_simple_filter_dict filter_ = false then
    (false, "filter dict is not subtype of OperatorFilterDict.")
  else
    match filter_.lookup "field" with
    | Option.some (PyVal.str field) =>
      if (get_valid_field_names model).contains field then (true, "")
      else (false, String.append "Model or select statement has no field " field)
    | _ => (false, "")

/-- The operator tag read by `_convert_filter`:
`filter_['operator'] if 'operator' in filter_ else '=='`. -/
def AdvancedOperatorFilterConverter.operator_tag (filter_ : FilterDict) : PyVal :=
  match filter_.lookup "operator" with
  | Option.some v => v
  | Option.none => PyVal.str "=="

/-- The tail of `_convert_filter` once the operator function is in
hand: resolve the field reference and apply the operator to the
value. -/
def AdvancedOperatorFilterConverter.apply_operator (model : DeclarativeBase)
    (filter_ : FilterDict) (operator_func : OperatorFunc) :
    Except PyError (List SQLAlchemyFilter) :=
  match filter_.lookup "field" with
  | Option.some (PyVal.str field) =>
    match get_sqlalchemy_attribute model field with
    | Except.error e => Except.error e
    | Except.ok sqlalchemy_field =>
      match filter_.lookup "value" with
      | Option.some v =>
        match operator_func sqlalchemy_field v with
        | Except.error e => Except.error e
        | Except.ok p => Except.ok [p]
      | Option.none => Except.error (PyError.keyError "value")
  | _ => Except.error (PyError.keyError "field")

/-- Embedding of `AdvancedOperatorFilterConverter._convert_filter`:
recheck the guard (raising the never-situation `FilterError` on
failure), read the operator tag (default the equality tag), look the
operator up (`KeyError` on a missing key), resolve the field and apply
the operator to the value. -/
def AdvancedOperatorFilterConverter.convert_filter (model : DeclarativeBase)
    (filter_ : FilterDict) : Except PyError (List SQLAlchemyFilter) :=
  if is_dict_simple_filter_dict filter_ = false then
    Except.error (PyError.filterError neverSituationMsg)
  else
    match AdvancedOperatorFilterConverter.operator_tag filter_ with
    | PyVal.str op =>
      match AdvancedOperatorFilterConverter.lookup_mapping op with
      | Option.none => Except.error (PyError.keyError op)
      | Option.some operator_func =>
        AdvancedOperatorFilterConverter.apply_operator model filter_ operator_func
    | _ => Except.error (PyError.keyError "operator")

/-- Embedding of `AdvancedOperatorFilterConverter.convert`. -/
def AdvancedOperatorFilterConverter.convert (model : DeclarativeBase)
    (filters : FilterInput) : Except PyError (List SQLAlchemyFilter) :=
  base_convert AdvancedOperatorFilterConverter.is_filter_valid
    AdvancedOperatorFilterConverter.convert_filter model filters

/-- Embedding of `DjangoLikeFilterConverter.lookup_mapping`. -/
def DjangoLikeFilterConverter.lookup_mapping : String → Option OperatorFunc
  | "exact" => Option.some django_exact
  | "iexact" => Option.some django_iexact
  | "contains" => Option.some django_contains
  | "icontains" => Option.some django_icontains
  | "in" => Option.some contains
  | "gt" => Option.some builtin_operator.gt
  | "gte" => Option.some builtin_operator.ge
  | "lt" => Option.some builtin_operator.lt
  | "lte" => Option.some builtin_operator.le
  | "startswith" => Option.some django_startswith
  | "istartswith" => Option.some django_istartswith
  | "endswith" => Option.some django_endswith
  | "iendswith" => Option.some django_iendswith
  | "range" => Option.some django_range
  | "date" => Option.some django_date
  | "year" => Option.some django_year
  | "iso_year" => Option.some django_iso_year
  | "month" => Option.some django_month
  | "day" => Option.some django_day
  | "week" => Option.some django_week
  | "week_day" => Option.some django_week_day
  | "iso_week_day" => Option.some django_iso_week_day
  | "quarter" => Option.some django_quarter
  | "time" => Option.some django_time
  | "hour" => Option.some django_hour
  | "minute" => Option.some django_minute
  | "second" => Option.some django_second
  | "isnull" => Option.some django_isnull
  | "regex" => Option.some django_regex
  | "iregex" => Option.some django_iregex
  | _ => Option.none

/-- Helper for Python `field.split("__")`: accumulate the current part
until the two-character separator is found (non-overlapping, left to
right), exactly as `str.split` does. -/
def split_dunder_aux : List Char → List Char → List String
  | cur, [] => [String.mk cur]
  | cur, '_' :: '_' :: rest => String.mk cur :: split_dunder_aux [] rest
  | cur, c :: rest => split_dunder_aux (cur ++ [c]) rest

/-- Embedding of `field.split("__")` on a Django-like filter key. -/
def split_dunder (s : String) : List String :=
  split_dunder_aux [] s.toList

/-- Check of one Django-like key after splitting, mirroring the body of
`DjangoLikeFilterConverter._is_filter_valid`: the field part must be a
recognized field name and the lookup part a key of the lookup
mapping. -/
def DjangoLikeFilterConverter.check_field_lookup (model : DeclarativeBase)
    (field_name lookup : String) : Bool × String :=
  if (get_valid_field_names model).contains field_name = false then
    (false, String.append "Model or select statement has no field " field_name)
  else if (DjangoLikeFilterConverter.lookup_mapping lookup).isNone then
    (false, String.append "Unexpected lookup " lookup)
  else (true, "")

/-- Embedding of `DjangoLikeFilterConverter._is_filter_valid`: each key
splits into at most two parts (more parts fail as nested filters); one
part means the `exact` lookup; field and lookup are then checked. -/
def DjangoLikeFilterConverter.is_filter_valid (model : DeclarativeBase) :
    FilterDict → Bool × String
  | [] => (true, "")
  | (field, _) :: rest =>
    match split_dunder field with
    | [field_name] =>
      match DjangoLikeFilterConverter.check_field_lookup model field_name "exact" with
      | (true, _) => DjangoLikeFilterConverter.is_filter_valid model rest
      | failure => failure
    | [field_name, lookup] =>
      match DjangoLikeFilterConverter.check_field_lookup model field_name lookup with
      | (true, _) => DjangoLikeFilterConverter.is_filter_valid model rest
      | failure => failure
    | _ =>
      (false, "DjangoLikeFilterConverter cannot use nested filters or related model filters yet.")

/-- Translation of one resolved Django-like key: the lookup is read from
the mapping first (`KeyError` on a missing key), then the field is
resolved, then the operator is applied. -/
def DjangoLikeFilterConverter.convert_resolved (model : DeclarativeBase)
    (field_name lookup : String) (value : PyVal) : Except PyError SQLAlchemyFilter :=
  match DjangoLikeFilterConverter.lookup_mapping lookup with
  | Option.none => Except.error (PyError.keyError lookup)
  | Option.some operator_func =>
    match get_sqlalchemy_attribute model field_name with
    | Except.error e => Except.error e
    | Except.ok sqlalchemy_field => operator_func sqlalchemy_field value

/-- Translation of one Django-like key-value pair, mirroring the split
performed inside `DjangoLikeFilterConverter._convert_filter`: more than
two parts raise the never-situation `FilterError`. -/
def DjangoLikeFilterConverter.convert_one (model : DeclarativeBase) (field : String)
    (value : PyVal) : Except PyError SQLAlchemyFilter :=
  match split_dunder field with
  | [field_name] => DjangoLikeFilterConverter.convert_resolved model field_name "exact" value
  | [field_name, lookup] => DjangoLikeFilterConverter.convert_resolved model field_name lookup value
  | _ => Except.error (PyError.filterError neverSituationMsg)

/-- Embedding of `DjangoLikeFilterConverter._convert_filter`: one
predicate per key-value pair, in dict order. -/
def DjangoLikeFilterConverter.convert_filter (model : DeclarativeBase) :
    FilterDict → Except PyError (List SQLAlchemyFilter)
  | [] => Except.ok []
  | (field, value) :: rest =>
    match DjangoLikeFilterConverter.convert_one model field value with
    | Except.error e => Except.error e
    | Except.ok p =>
      match DjangoLikeFilterConverter.convert_filter model rest with
      | Except.error e => Except.error e
      | Except.ok ps => Except.ok (p :: ps)

/-- Embedding of `DjangoLikeFilterConverter.convert`. -/
def DjangoLikeFilterConverter.convert (model : DeclarativeBase) (filters : FilterInput) :
    Except PyError (List SQLAlchemyFilter) :=
  base_convert DjangoLikeFilterConverter.is_filter_valid
    DjangoLikeFilterConverter.convert_filter model filters

/-- Embedding of the Python type object passed as `field_type` of the
disable operation (`type[datetime.datetime] | type[bool]` plus wrong
types such as `str` used by the tests). -/
inductive PyType where
  | boolT
  | datetimeT
  | strT
  | intT
deriving DecidableEq

/-- An UPDATE statement as built by the disable path: accumulated WHERE
predicates plus the single SET assignment. -/
structure UpdateStmt where
  whereFilters : List SQLAlchemyFilter
  setField : String
  setValue : PyVal

/-- Modelled from the spec: `BaseQuery._make_disable_filters`
(sqlrepo/queries.py) is not under src, only its tests are.  Per the
spec (section 4.3, Disable) the filters are the id-membership predicate
over the id set, then, when the exclusion flag is set, the predicate
restricting to rows not already in the disabled state: for the boolean
type `is_not true`; for the timestamp type the rows not already
disabled are those whose disable field is still NULL (`is_(None)`,
matching the repository tests); caller-supplied extra filters are
converted by the active filter converter and appended. -/
def make_disable_filters
    (conv : DeclarativeBase → FilterInput → Except PyError (List SQLAlchemyFilter))
    (model : DeclarativeBase) (id_field : String) (ids_to_disable : List PyVal)
    (disable_field : String) (field_type : PyType) (allow_filter_by_value : Bool)
    (extra_filters : Option FilterDict) : Except PyError (List SQLAlchemyFilter) :=
  let base := [SQLAlchemyFilter.inList id_field ids_to_disable]
  let with_exclusion :=
    if allow_filter_by_value then
      match field_type with
      | PyType.boolT => base ++ [SQLAlchemyFilter.isNot disable_field (PyVal.bool true)]
      | PyType.datetimeT => base ++ [SQLAlchemyFilter.is disable_field PyVal.none]
      | _ => base
    else base
  match extra_filters with
  | Option.none => Except.ok with_exclusion
  | Option.some d =>
    match conv model (FilterInput.dict d) with
    | Except.error e => Except.error e
    | Except.ok ps => Except.ok (with_exclusion ++ ps)

/-- Modelled from the spec: `BaseQuery._disable_items_stmt`
(sqlrepo/queries.py) is not under src, only its tests are.  Per the
spec (sections 4.3 and 7) the preconditions are enforced before any
statement is constructed: a disable-field type outside boolean and
timestamp raises `TypeError` and an empty id set raises `ValueError`
(messages per the repository tests); otherwise an UPDATE is built that
sets the disable field to literal true (boolean) or to the current UTC
instant (timestamp, passed here as `now`), restricted by the disable
filters. -/
def disable_items_stmt
    (conv : DeclarativeBase → FilterInput → Except PyError (List SQLAlchemyFilter))
    (model : DeclarativeBase) (ids_to_disable : List PyVal)
    (id_field disable_field : String) (field_type : PyType)
    (allow_filter_by_value : Bool) (extra_filters : Option FilterDict)
    (now : PyVal) : Except PyError UpdateStmt :=
  if field_type = PyType.boolT ∨ field_type = PyType.datetimeT then
    if ids_to_disable.isEmpty then
      Except.error
        (PyError.valueError "Parameter \"ids_to_disable\" should contains at least one element.")
    else
      match make_disable_filters conv model id_field ids_to_disable disable_field field_type
          allow_filter_by_value extra_filters with
      | Except.error e => Except.error e
      | Except.ok filters =>
        Except.ok
          (UpdateStmt.mk filters disable_field
            (match field_type with
             | PyType.boolT => PyVal.bool true
             | _ => now))
  else
    Except.error
      (PyError.typeError "Parameter \"field_type\" should be bool or datetime.datetime type.")

/-- Embedding of the test model `MyModel` (src/tests/utils.py): its
column names plus the hybrid property and hybrid method names, as
`get_valid_field_names` would report them. -/
def MyModel : DeclarativeBase :=
  DeclarativeBase.mk ["id", "name", "other_name", "dt", "bl", "full_name", "get_full_name"]

/-- Does the embedded computation raise `FilterError`? -/
def isFilterErrorB {α : Type} : Except PyError α → Bool
  | Except.error (PyError.filterError _) => true
  | _ => false

/-- The advanced filter dict carries a string field key naming a
recognized field of the model. -/
def advanced_field_ok (model : DeclarativeBase) (d : FilterDict) : Bool :=
  match d.lookup "field" with
  | Option.some (PyVal.str s) => (get_valid_field_names model).contains s
  | _ => false

/-- One Django-like key passes the per-key part of
`DjangoLikeFilterConverter._is_filter_valid`. -/
def django_key_ok (model : DeclarativeBase) (k : String) : Bool :=
  match split_dunder k with
  | [field_name] => (DjangoLikeFilterConverter.check_field_lookup model field_name "exact").fst
  | [field_name, lookup] => (DjangoLikeFilterConverter.check_field_lookup model field_name lookup).fst
  | _ => false

/-- A failed validation of the head dict makes the convert loop raise
`FilterError`. -/
theorem convert_with_invalid_head_filterError
    (is_valid : DeclarativeBase → FilterDict → Bool × String)
    (conv : DeclarativeBase → FilterDict → Except PyError (List SQLAlchemyFilter))
    (model : DeclarativeBase) (d : FilterDict) (rest : List FilterItem)
    (h : (is_valid model d).fst = false) :
    isFilterErrorB (convert_with is_valid conv model (FilterItem.dict d :: rest)) = true := by
  rcases hd : is_valid model d with ⟨b, msg⟩
  rw [hd] at h
  simp only at h
  subst h
  simp [convert_with, hd, isFilterErrorB]

/-- On a single valid dict, the convert loop raises `FilterError` iff
the translation step does. -/
theorem convert_with_single_dict_valid
    (is_valid : DeclarativeBase → FilterDict → Bool × String)
    (conv : DeclarativeBase → FilterDict → Except PyError (List SQLAlchemyFilter))
    (model : DeclarativeBase) (d : FilterDict)
    (h : (is_valid model d).fst = true) :
    isFilterErrorB (convert_with is_valid conv model [FilterItem.dict d])
      = isFilterErrorB (conv model d) := by
  rcases hd : is_valid model d with ⟨b, msg⟩
  rw [hd] at h
  simp only at h
  subst h
  rcases hc : conv model d with e | ps
  · simp [convert_with, hd, hc]
  · simp [convert_with, hd, hc, isFilterErrorB]

/-- The `between` operator never raises `FilterError`: it builds a
predicate or raises `TypeError`. -/
theorem between_never_filterError (a : String) (b : PyVal) :
    isFilterErrorB (between a b) = false := by
  unfold between
  rcases hs : seqElems b with _ | es
  · rfl
  · rcases es with _ | ⟨x, _ | ⟨y, _ | _⟩⟩ <;> rfl

/-- The membership operator never raises `FilterError`. -/
theorem contains_never_filterError (a : String) (b : PyVal) :
    isFilterErrorB (contains a b) = false := by
  unfold contains
  rcases hs : seqElems b with _ | es <;> rfl

/-- CLAIM C1 counterexample: building the disable filters for a
timestamp disable field with the exclusion flag set produces the
`IS NULL` exclusion predicate (`dt.is_(None)`), not the `IS NOT NULL`
predicate the claim states. -/
theorem make_disable_filters_timestamp_exclusion_is_null :
    make_disable_filters SimpleFilterConverter.convert MyModel "id"
      [PyVal.int 1, PyVal.int 2, PyVal.int 3] "dt" PyType.datetimeT true Option.none
      = Except.ok [SQLAlchemyFilter.inList "id" [PyVal.int 1, PyVal.int 2, PyVal.int 3],
          SQLAlchemyFilter.is "dt" PyVal.none]
  ∧ SQLAlchemyFilter.is "dt" PyVal.none ≠ SQLAlchemyFilter.isNot "dt" PyVal.none :=
  ⟨rfl, fun h => SQLAlchemyFilter.noConfusion h⟩

/-- CLAIM C1 (amended): with no extra filters, the disable filters are
the id-membership predicate followed, exactly when the exclusion flag is
set, by one exclusion predicate: `is_not true` for the boolean type and
`IS NULL` (`is_(None)`) for the timestamp type; with the flag unset no
exclusion predicate is added. -/
theorem make_disable_filters_exclusion_amended
    (conv : DeclarativeBase → FilterInput → Except PyError (List SQLAlchemyFilter))
    (model : DeclarativeBase) (id_field disable_field : String) (ids : List PyVal)
    (field_type : PyType) (allow : Bool)
    (h : field_type = PyType.boolT ∨ field_type = PyType.datetimeT) :
    make_disable_filters conv model id_field ids disable_field field_type allow Option.none
      = Except.ok (SQLAlchemyFilter.inList id_field ids ::
          (if allow then
            [if field_type = PyType.boolT then
              SQLAlchemyFilter.isNot disable_field (PyVal.bool true)
             else SQLAlchemyFilter.is disable_field PyVal.none]
           else [])) := by
  rcases h with rfl | rfl <;> cases allow <;> rfl

/-- CLAIM C1 witness: concrete boolean disable with exclusion enabled. -/
theorem make_disable_filters_exclusion_amended_witness :
    make_disable_filters SimpleFilterConverter.convert MyModel "id" [PyVal.int 1] "bl"
      PyType.boolT true Option.none
      = Except.ok [SQLAlchemyFilter.inList "id" [PyVal.int 1],
          SQLAlchemyFilter.isNot "bl" (PyVal.bool true)] := by
  have h := make_disable_filters_exclusion_amended SimpleFilterConverter.convert MyModel
    "id" "bl" [PyVal.int 1] PyType.boolT true (Or.inl rfl)
  simpa using h

/-- CLAIM C2: the disable statement builder rejects an empty id set with
`ValueError` and a disable-field type outside boolean and timestamp with
`TypeError`; both rejections happen in the construction function before
any statement value exists, and under the preconditions (with no extra
filters) a statement is built and no fault is raised. -/
theorem disable_items_stmt_preconditions
    (conv : DeclarativeBase → FilterInput → Except PyError (List SQLAlchemyFilter))
    (model : DeclarativeBase) (ids : List PyVal) (id_field disable_field : String)
    (field_type : PyType) (allow : Bool) (now : PyVal) :
    (field_type ≠ PyType.boolT ∧ field_type ≠ PyType.datetimeT →
      disable_items_stmt conv model ids id_field disable_field field_type allow Option.none now
        = Except.error (PyError.typeError
            "Parameter \"field_type\" should be bool or datetime.datetime type."))
  ∧ ((field_type = PyType.boolT ∨ field_type = PyType.datetimeT) → ids = [] →
      disable_items_stmt conv model ids id_field disable_field field_type allow Option.none now
        = Except.error (PyError.valueError
            "Parameter \"ids_to_disable\" should contains at least one element."))
  ∧ ((field_type = PyType.boolT ∨ field_type = PyType.datetimeT) → ids ≠ [] →
      ∃ stmt, disable_items_stmt conv model ids id_field disable_field field_type allow
          Option.none now = Except.ok stmt) := by
  refine ⟨?_, ?_, ?_⟩
  · intro h
    rcases h with ⟨h1, h2⟩
    unfold disable_items_stmt
    rw [if_neg]
    intro hor
    rcases hor with hb | hd
    · exact h1 hb
    · exact h2 hd
  · intro hor hids
    subst hids
    unfold disable_items_stmt
    rw [if_pos hor]
    rfl
  · intro hor hids
    unfold disable_items_stmt
    rw [if_pos hor]
    rw [if_neg]
    · unfold make_disable_filters
      exact ⟨_, rfl⟩
    · simpa [List.isEmpty_iff] using hids

/-- CLAIM C2 witness: concrete empty-id-set rejection. -/
theorem disable_items_stmt_preconditions_witness :
    disable_items_stmt SimpleFilterConverter.convert MyModel [] "id" "bl" PyType.boolT true
      Option.none (PyVal.bool true)
      = Except.error (PyError.valueError
          "Parameter \"ids_to_disable\" should contains at least one element.") :=
  (disable_items_stmt_preconditions SimpleFilterConverter.convert MyModel [] "id" "bl"
    PyType.boolT true (PyVal.bool true)).2.1 (Or.inl rfl) rfl

/-- CLAIM C5: `between` (and `range`, which delegates to it) returns the
always-false predicate, raising nothing, on any sequence value whose
length is not 2, and the BETWEEN predicate over the two bounds on any
sequence value of length exactly 2. -/
theorem between_fail_soft (a : String) (v : PyVal) (es : List PyVal)
    (h : seqElems v = Option.some es) :
    (es.length ≠ 2 →
      between a v = Except.ok SQLAlchemyFilter.sqlFalse
        ∧ django_range a v = Except.ok SQLAlchemyFilter.sqlFalse)
  ∧ ∀ lo hi, es = [lo, hi] →
      between a v = Except.ok (SQLAlchemyFilter.between a lo hi)
        ∧ django_range a v = Except.ok (SQLAlchemyFilter.between a lo hi) := by
  constructor
  · intro hlen
    have hb : between a v = Except.ok SQLAlchemyFilter.sqlFalse := by
      unfold between
      rw [h]
      rcases es with _ | ⟨x, _ | ⟨y, _ | _⟩⟩
      · rfl
      · rfl
      · exact absurd rfl hlen
      · rfl
    exact ⟨hb, by unfold django_range; exact hb⟩
  · intro lo hi hes
    subst hes
    have hb : between a v = Except.ok (SQLAlchemyFilter.between a lo hi) := by
      unfold between
      rw [h]
    exact ⟨hb, by unfold django_range; exact hb⟩

/-- CLAIM C5 witness: a three-element value fails soft, a two-element
value builds the BETWEEN predicate. -/
theorem between_fail_soft_witness :
    (between "id" (PyVal.list [PyVal.int 1, PyVal.int 2, PyVal.int 3])
        = Except.ok SQLAlchemyFilter.sqlFalse
      ∧ django_range "id" (PyVal.list [PyVal.int 1, PyVal.int 2, PyVal.int 3])
        = Except.ok SQLAlchemyFilter.sqlFalse)
  ∧ (between "id" (PyVal.list [PyVal.int 1, PyVal.int 2])
        = Except.ok (SQLAlchemyFilter.between "id" (PyVal.int 1) (PyVal.int 2))
      ∧ django_range "id" (PyVal.list [PyVal.int 1, PyVal.int 2])
        = Except.ok (SQLAlchemyFilter.between "id" (PyVal.int 1) (PyVal.int 2))) :=
  ⟨(between_fail_soft "id" (PyVal.list [PyVal.int 1, PyVal.int 2, PyVal.int 3])
      [PyVal.int 1, PyVal.int 2, PyVal.int 3] rfl).1 (by decide),
   (between_fail_soft "id" (PyVal.list [PyVal.int 1, PyVal.int 2])
      [PyVal.int 1, PyVal.int 2] rfl).2 (PyVal.int 1) (PyVal.int 2) rfl⟩

/-- CLAIM C8: `exact` and `iexact` are null-aware: a `None` value builds
an IS NULL predicate; a non-`None` value builds equality for `exact`,
and for `iexact` a case-insensitive comparison (`ilike`) on strings and
equality otherwise. -/
theorem django_exact_iexact_null_aware (a : String) (b : PyVal) :
    (django_exact a PyVal.none = Except.ok (SQLAlchemyFilter.is a PyVal.none)
      ∧ django_iexact a PyVal.none = Except.ok (SQLAlchemyFilter.is a PyVal.none))
  ∧ (b ≠ PyVal.none → django_exact a b = Except.ok (SQLAlchemyFilter.eq a b))
  ∧ (∀ s, django_iexact a (PyVal.str s) = Except.ok (SQLAlchemyFilter.ilike a (PyVal.str s)))
  ∧ (b ≠ PyVal.none → (∀ s, b ≠ PyVal.str s) →
      django_iexact a b = Except.ok (SQLAlchemyFilter.eq a b)) := by
  refine ⟨⟨rfl, rfl⟩, ?_, fun s => rfl, ?_⟩
  · intro h
    cases b
    · exact absurd rfl h
    · rfl
    · rfl
    · rfl
    · rfl
  · intro h hs
    cases b with
    | none => exact absurd rfl h
    | str s => exact absurd rfl (hs s)
    | bool x => rfl
    | int x => rfl
    | list xs => rfl

/-- CLAIM C8 witness: concrete non-null, non-string value. -/
theorem django_exact_iexact_null_aware_witness :
    django_exact "name" (PyVal.int 5) = Except.ok (SQLAlchemyFilter.eq "name" (PyVal.int 5))
  ∧ django_iexact "name" (PyVal.int 5) = Except.ok (SQLAlchemyFilter.eq "name" (PyVal.int 5)) :=
  ⟨(django_exact_iexact_null_aware "name" (PyVal.int 5)).2.1 (fun h => PyVal.noConfusion h),
   (django_exact_iexact_null_aware "name" (PyVal.int 5)).2.2.2 (fun h => PyVal.noConfusion h)
     (fun s h => PyVal.noConfusion h)⟩

/-- CLAIM C10: `iexact` on a non-`None` string value builds an ILIKE
predicate whose pattern is the value itself, unchanged (no wildcard
wrapping, no escaping), and which is a pattern match, not equality. -/
theorem django_iexact_pattern_unchanged (a s : String) :
    django_iexact a (PyVal.str s) = Except.ok (SQLAlchemyFilter.ilike a (PyVal.str s))
  ∧ SQLAlchemyFilter.ilike a (PyVal.str s) ≠ SQLAlchemyFilter.eq a (PyVal.str s) :=
  ⟨rfl, fun h => SQLAlchemyFilter.noConfusion h⟩

/-- When every key of the dict is a recognized field, the simple
validation succeeds. -/
theorem simple_is_filter_valid_all (model : DeclarativeBase) (d : FilterDict)
    (h : ∀ p ∈ d, (get_valid_field_names model).contains p.fst = true) :
    SimpleFilterConverter.is_filter_valid model d = (true, "") := by
  induction d with
  | nil => rfl
  | cons p rest ih =>
    obtain ⟨k, v⟩ := p
    have hk : (get_valid_field_names model).contains k = true := h (k, v) (by simp)
    simp only [SimpleFilterConverter.is_filter_valid, hk, if_true]
    exact ih (fun q hq => h q (List.mem_cons_of_mem _ hq))

/-- When every key of the dict is a recognized field, the simple
translation yields one equality predicate per pair, in order. -/
theorem simple_convert_filter_map_eq (model : DeclarativeBase) (d : FilterDict)
    (h : ∀ p ∈ d, (get_valid_field_names model).contains p.fst = true) :
    SimpleFilterConverter.convert_filter model d
      = Except.ok (d.map (fun p => SQLAlchemyFilter.eq p.fst p.snd)) := by
  induction d with
  | nil => rfl
  | cons p rest ih =>
    obtain ⟨k, v⟩ := p
    have hk : (get_valid_field_names model).contains k = true := h (k, v) (by simp)
    have hrest := ih (fun q hq => h q (List.mem_cons_of_mem _ hq))
    have hattr : get_sqlalchemy_attribute model k = Except.ok k := by
      unfold get_sqlalchemy_attribute
      rw [hk] <;> simp
    simp only [SimpleFilterConverter.convert_filter, hattr, builtin_operator.eq, hrest,
      List.map_cons]

/-- CLAIM C7: on a filter dict whose keys are all recognized fields,
the simple strategy converts to exactly one equality predicate per
key-value pair, in dict order. -/
theorem simple_convert_equality_per_key (model : DeclarativeBase) (d : FilterDict)
    (h : ∀ p ∈ d, (get_valid_field_names model).contains p.fst = true) :
    SimpleFilterConverter.convert model (FilterInput.dict d)
      = Except.ok (d.map (fun p => SQLAlchemyFilter.eq p.fst p.snd)) := by
  have hv := simple_is_filter_valid_all model d h
  have hc := simple_convert_filter_map_eq model d h
  unfold SimpleFilterConverter.convert base_convert
  simp [convert_with, hv, hc]

/-- CLAIM C7 witness: the concrete scenario of the specification. -/
theorem simple_convert_equality_per_key_witness :
    SimpleFilterConverter.convert MyModel (FilterInput.dict [("name", PyVal.str "x")])
      = Except.ok [SQLAlchemyFilter.eq "name" (PyVal.str "x")] := by
  have h := simple_convert_equality_per_key MyModel [("name", PyVal.str "x")]
    (by intro p hp; simp at hp; subst hp; rfl)
  simpa using h

/-- CLAIM C4 counterexample: the map with the single key
`name__badlookup` fails the Django-like validation (unknown lookup), yet
invoking `_convert_filter` directly on it raises `KeyError`, not the
never-situation `FilterError` the claim promises for every invalid
map. -/
theorem django_convert_filter_unknown_lookup_keyerror :
    (DjangoLikeFilterConverter.is_filter_valid MyModel
        [("name__badlookup", PyVal.int 1)]).fst = false
  ∧ DjangoLikeFilterConverter.convert_filter MyModel [("name__badlookup", PyVal.int 1)]
      = Except.error (PyError.keyError "badlookup")
  ∧ PyError.keyError "badlookup" ≠ PyError.filterError neverSituationMsg :=
  ⟨rfl, rfl, fun h => PyError.noConfusion h⟩

/-- Inversion of one step of the Django-like validation: a successful
validation of a non-empty dict means the head key passed the per-key
check and the tail validated. -/
theorem django_is_filter_valid_cons (model : DeclarativeBase) (k : String) (v : PyVal)
    (rest : FilterDict)
    (h : (DjangoLikeFilterConverter.is_filter_valid model ((k, v) :: rest)).fst = true) :
    django_key_ok model k = true
      ∧ (DjangoLikeFilterConverter.is_filter_valid model rest).fst = true := by
  simp only [DjangoLikeFilterConverter.is_filter_valid] at h
  unfold django_key_ok
  cases hs : split_dunder k with
  | nil => rw [hs] at h; simp at h
  | cons x tail =>
    cases tail with
    | nil =>
      rw [hs] at h
      have h2 : (match DjangoLikeFilterConverter.check_field_lookup model x "exact" with
          | (true, _) => DjangoLikeFilterConverter.is_filter_valid model rest
          | failure => failure).fst = true := h
      rcases hc : DjangoLikeFilterConverter.check_field_lookup model x "exact" with ⟨cb, cm⟩
      rw [hc] at h2
      cases cb with
      | false => simp at h2
      | true =>
        constructor
        · show (DjangoLikeFilterConverter.check_field_lookup model x "exact").fst = true
          rw [hc]
        · exact h2
    | cons y tail2 =>
      cases tail2 with
      | nil =>
        rw [hs] at h
        have h2 : (match DjangoLikeFilterConverter.check_field_lookup model x y with
            | (true, _) => DjangoLikeFilterConverter.is_filter_valid model rest
            | failure => failure).fst = true := h
        rcases hc : DjangoLikeFilterConverter.check_field_lookup model x y with ⟨cb, cm⟩
        rw [hc] at h2
        cases cb with
        | false => simp at h2
        | true =>
          constructor
          · show (DjangoLikeFilterConverter.check_field_lookup model x y).fst = true
            rw [hc]
          · exact h2
      | cons z tail3 => rw [hs] at h; simp at h

/-- A successful Django-like validation means every key passed the
per-key check. -/
theorem django_is_filter_valid_all (model : DeclarativeBase) (d : FilterDict)
    (h : (DjangoLikeFilterConverter.is_filter_valid model d).fst = true) :
    ∀ p ∈ d, django_key_ok model p.fst = true := by
  induction d with
  | nil => intro p hp; cases hp
  | cons q rest ih =>
    obtain ⟨k, v⟩ := q
    obtain ⟨hk, hrest⟩ := django_is_filter_valid_cons model k v rest h
    intro p hp
    cases hp with
    | head => exact hk
    | tail _ hp => exact ih hrest p hp

/-- CLAIM C6: a Django-like filter dict containing a key with more than
one separator (more than two split parts), or a key whose lookup suffix
is not in the lookup mapping, makes `convert` raise `FilterError`. -/
theorem django_convert_rejects_bad_keys (model : DeclarativeBase) (d : FilterDict)
    (k : String) (v : PyVal) (hmem : (k, v) ∈ d)
    (hbad : 2 < (split_dunder k).length ∨
      ∃ f l, split_dunder k = [f, l]
        ∧ DjangoLikeFilterConverter.lookup_mapping l = Option.none) :
    isFilterErrorB (DjangoLikeFilterConverter.convert model (FilterInput.dict d)) = true := by
  have hko : django_key_ok model k = false := by
    unfold django_key_ok
    rcases hbad with hlen | ⟨f, l, hfl, hnone⟩
    · cases hs : split_dunder k with
      | nil => rw [hs] at hlen <;> simp at hlen
      | cons x tail =>
        cases tail with
        | nil => rw [hs] at hlen <;> simp at hlen
        | cons y tail2 =>
          cases tail2 with
          | nil => rw [hs] at hlen <;> simp at hlen
          | cons z tail3 => rfl
    · rw [hfl]
      show (DjangoLikeFilterConverter.check_field_lookup model f l).fst = false
      unfold DjangoLikeFilterConverter.check_field_lookup
      cases hf : (get_valid_field_names model).contains f with
      | false => simp
      | true => rw [hnone] <;> simp
  have hval : (DjangoLikeFilterConverter.is_filter_valid model d).fst = false := by
    cases hb : (DjangoLikeFilterConverter.is_filter_valid model d).fst with
    | false => rfl
    | true =>
      have hall : django_key_ok model k = true :=
        django_is_filter_valid_all model d hb (k, v) hmem
      rw [hko] at hall
      exact Bool.noConfusion hall
  unfold DjangoLikeFilterConverter.convert base_convert
  exact convert_with_invalid_head_filterError _ _ model d [] hval

/-- CLAIM C6 witness: the nested key used by the repository tests. -/
theorem django_convert_rejects_bad_keys_witness :
    isFilterErrorB (DjangoLikeFilterConverter.convert MyModel
      (FilterInput.dict [("dt__hour__gt__abc", PyVal.int 2)])) = true :=
  django_convert_rejects_bad_keys MyModel [("dt__hour__gt__abc", PyVal.int 2)]
    "dt__hour__gt__abc" (PyVal.int 2) (by simp) (Or.inl (by decide))

/-- An operator key whose value is a string outside
`AdvancedOperatorsSet` makes the advanced guard fail. -/
theorem guard_false_of_bad_operator (d : FilterDict) (s : String)
    (hs : AdvancedOperatorsSet.contains s = false)
    (ho : d.lookup "operator" = Option.some (PyVal.str s)) :
    is_dict_simple_filter_dict d = false := by
  unfold is_dict_simple_filter_dict
  cases hf : d.lookup "field" with
  | none => rfl
  | some w =>
    cases w with
    | str t =>
      cases hv : d.lookup "value" with
      | none => rfl
      | some u =>
        rw [ho]
        exact hs
    | none => rfl
    | bool x => rfl
    | int x => rfl
    | list xs => rfl

/-- CLAIM C9: the advanced lookup mapping advertises the operators `is`
and `is_not`, but the validation set excludes them, so any filter dict
carrying either of them under the operator key makes `convert` raise
the filter validation error: the two mapping entries are unreachable
through `convert`. -/
theorem advanced_is_isnot_unreachable :
    ((AdvancedOperatorFilterConverter.lookup_mapping "is").isSome = true
      ∧ (AdvancedOperatorFilterConverter.lookup_mapping "is_not").isSome = true
      ∧ AdvancedOperatorsSet.contains "is" = false
      ∧ AdvancedOperatorsSet.contains "is_not" = false)
  ∧ ∀ (model : DeclarativeBase) (d : FilterDict) (s : String),
      (s = "is" ∨ s = "is_not") →
      d.lookup "operator" = Option.some (PyVal.str s) →
      isFilterErrorB (AdvancedOperatorFilterConverter.convert model
        (FilterInput.dict d)) = true := by
  refine ⟨⟨rfl, rfl, by decide, by decide⟩, ?_⟩
  intro model d s hs ho
  have hcontains : AdvancedOperatorsSet.contains s = false := by
    rcases hs with rfl | rfl <;> decide
  have hg := guard_false_of_bad_operator d s hcontains ho
  have hval : (AdvancedOperatorFilterConverter.is_filter_valid model d).fst = false := by
    unfold AdvancedOperatorFilterConverter.is_filter_valid
    rw [hg] <;> simp
  unfold AdvancedOperatorFilterConverter.convert base_convert
  exact convert_with_invalid_head_filterError _ _ model d [] hval

/-- CLAIM C9 witness: a concrete advanced filter dict asking for the
`is` operator is rejected by `convert`. -/
theorem advanced_is_isnot_unreachable_witness :
    isFilterErrorB (AdvancedOperatorFilterConverter.convert MyModel
      (FilterInput.dict [("field", PyVal.str "name"), ("value", PyVal.int 1),
        ("operator", PyVal.str "is")])) = true :=
  advanced_is_isnot_unreachable.2 MyModel
    [("field", PyVal.str "name"), ("value", PyVal.int 1), ("operator", PyVal.str "is")]
    "is" (Or.inl rfl) rfl

/-- Shape facts extracted from a successful advanced guard: the field
key holds a string, the value key is present, and the operator key is
absent or holds a string of the fixed operator set. -/
theorem advanced_guard_shape (d : FilterDict) (h : is_dict_simple_filter_dict d = true) :
    ∃ s, d.lookup "field" = Option.some (PyVal.str s)
      ∧ (∃ v, d.lookup "value" = Option.some v)
      ∧ (d.lookup "operator" = Option.none
          ∨ ∃ op, d.lookup "operator" = Option.some (PyVal.str op)
              ∧ AdvancedOperatorsSet.contains op = true) := by
  unfold is_dict_simple_filter_dict at h
  cases hf : d.lookup "field" with
  | none => rw [hf] at h; exact Bool.noConfusion (show false = true from h)
  | some w =>
    rw [hf] at h
    cases w with
    | str t =>
      cases hv : d.lookup "value" with
      | none => rw [hv] at h; exact Bool.noConfusion (show false = true from h)
      | some u =>
        rw [hv] at h
        cases ho : d.lookup "operator" with
        | none => exact ⟨t, rfl, ⟨u, rfl⟩, Or.inl rfl⟩
        | some x =>
          rw [ho] at h
          cases x with
          | str op => exact ⟨t, rfl, ⟨u, rfl⟩, Or.inr ⟨op, rfl, h⟩⟩
          | none => exact Bool.noConfusion (show false = true from h)
          | bool b2 => exact Bool.noConfusion (show false = true from h)
          | int n2 => exact Bool.noConfusion (show false = true from h)
          | list l2 => exact Bool.noConfusion (show false = true from h)
    | none => exact Bool.noConfusion (show false = true from h)
    | bool b2 => exact Bool.noConfusion (show false = true from h)
    | int n2 => exact Bool.noConfusion (show false = true from h)
    | list l2 => exact Bool.noConfusion (show false = true from h)

/-- Whether a raised error is the filter validation error does not
depend on the result type of the computation it aborted. -/
theorem isFilterErrorB_error_congr (α β : Type) (e : PyError) :
    isFilterErrorB (Except.error e : Except PyError α)
      = isFilterErrorB (Except.error e : Except PyError β) := by
  cases e <;> rfl

/-- Every operator tag of the fixed advanced set has a lookup-mapping
entry, and that entry never raises `FilterError`. -/
theorem advanced_mapped_op_never_filterError (op : String)
    (hop : AdvancedOperatorsSet.contains op = true) :
    ∃ f, AdvancedOperatorFilterConverter.lookup_mapping op = Option.some f
      ∧ ∀ (a : String) (w : PyVal), isFilterErrorB (f a w) = false := by
  have hmem : op = "==" ∨ op = ">" ∨ op = "<" ∨ op = ">=" ∨ op = "<="
      ∨ op = "between" ∨ op = "contains" := by
    have hm : op ∈ AdvancedOperatorsSet := by
      simpa using hop
    simpa [AdvancedOperatorsSet] using hm
  rcases hmem with rfl | rfl | rfl | rfl | rfl | rfl | rfl
  · exact ⟨builtin_operator.eq, rfl, fun a w => rfl⟩
  · exact ⟨builtin_operator.gt, rfl, fun a w => rfl⟩
  · exact ⟨builtin_operator.lt, rfl, fun a w => rfl⟩
  · exact ⟨builtin_operator.ge, rfl, fun a w => rfl⟩
  · exact ⟨builtin_operator.le, rfl, fun a w => rfl⟩
  · exact ⟨between, rfl, fun a w => between_never_filterError a w⟩
  · exact ⟨contains, rfl, fun a w => contains_never_filterError a w⟩

/-- The first component of the advanced validation is the conjunction
of the structural guard and the recognized-field check. -/
theorem advanced_is_filter_valid_fst (model : DeclarativeBase) (d : FilterDict) :
    (AdvancedOperatorFilterConverter.is_filter_valid model d).fst
      = (is_dict_simple_filter_dict d && advanced_field_ok model d) := by
  unfold AdvancedOperatorFilterConverter.is_filter_valid advanced_field_ok
  cases hg : is_dict_simple_filter_dict d with
  | false => simp
  | true =>
    cases hf : d.lookup "field" with
    | none => simp
    | some w =>
      cases w with
      | str t =>
        by_cases hm : t ∈ get_valid_field_names model
        · simp [hm]
        · simp [hm]
      | none => simp
      | bool x => simp
      | int x => simp
      | list xs => simp

/-- On a dict passing the guard with a recognized field, the advanced
translation step never raises `FilterError`. -/
theorem advanced_convert_filter_ok_no_filterError (model : DeclarativeBase) (d : FilterDict)
    (hg : is_dict_simple_filter_dict d = true)
    (hfo : advanced_field_ok model d = true) :
    isFilterErrorB (AdvancedOperatorFilterConverter.convert_filter model d) = false := by
  obtain ⟨s, hf, ⟨v, hv⟩, hopcase⟩ := advanced_guard_shape d hg
  have hcont : (get_valid_field_names model).contains s = true := by
    have h2 := hfo
    unfold advanced_field_ok at h2
    rw [hf] at h2
    exact h2
  have hattr : get_sqlalchemy_attribute model s = Except.ok s := by
    unfold get_sqlalchemy_attribute
    rw [hcont] <;> simp
  obtain ⟨opstr, hosel, f, hlook, hnofe⟩ :
      ∃ opstr, AdvancedOperatorFilterConverter.operator_tag d = PyVal.str opstr
        ∧ ∃ f, AdvancedOperatorFilterConverter.lookup_mapping opstr = Option.some f
          ∧ ∀ (a : String) (w : PyVal), isFilterErrorB (f a w) = false := by
    rcases hopcase with hnone | ⟨op, ho, hcop⟩
    · refine ⟨"==", ?_, builtin_operator.eq, rfl, fun a w => rfl⟩
      unfold AdvancedOperatorFilterConverter.operator_tag
      rw [hnone]
    · obtain ⟨f, hlook, hnofe⟩ := advanced_mapped_op_never_filterError op hcop
      refine ⟨op, ?_, f, hlook, hnofe⟩
      unfold AdvancedOperatorFilterConverter.operator_tag
      rw [ho]
  have happ : isFilterErrorB
      (AdvancedOperatorFilterConverter.apply_operator model d f) = false := by
    unfold AdvancedOperatorFilterConverter.apply_operator
    rcases hres : f s v with e | p
    · have hne := hnofe s v
      rw [hres] at hne
      simp [hf, hattr, hv, hres]
      exact (isFilterErrorB_error_congr (List SQLAlchemyFilter) SQLAlchemyFilter e).trans hne
    · simp [hf, hattr, hv, hres, isFilterErrorB]
  unfold AdvancedOperatorFilterConverter.convert_filter
  simp [hg, hosel, hlook, happ]

/-- CLAIM C3 counterexample: an advanced filter dict with a key beyond
field, value and operator is accepted by `convert` (the extra key is
ignored), contradicting the claim that such maps raise the validation
error. -/
theorem advanced_convert_accepts_extra_keys :
    AdvancedOperatorFilterConverter.convert MyModel
      (FilterInput.dict [("field", PyVal.str "name"), ("value", PyVal.int 1),
        ("extra_key", PyVal.int 2)])
      = Except.ok [SQLAlchemyFilter.eq "name" (PyVal.int 1)]
  ∧ isFilterErrorB (AdvancedOperatorFilterConverter.convert MyModel
      (FilterInput.dict [("field", PyVal.str "name"), ("value", PyVal.int 1),
        ("extra_key", PyVal.int 2)])) = false :=
  ⟨rfl, rfl⟩

/-- CLAIM C3 (amended): the advanced `convert` raises the filter
validation error on a single filter dict exactly when the dict fails
the field/value/operator guard (missing or non-string field, missing
value, or operator outside the fixed set) or its field is not a
recognized field of the model; keys beyond the three are ignored, not
rejected. -/
theorem advanced_convert_filterError_characterization (model : DeclarativeBase)
    (d : FilterDict) :
    isFilterErrorB (AdvancedOperatorFilterConverter.convert model (FilterInput.dict d))
      = !(is_dict_simple_filter_dict d && advanced_field_ok model d) := by
  cases hg : is_dict_simple_filter_dict d with
  | false =>
    have hval : (AdvancedOperatorFilterConverter.is_filter_valid model d).fst = false := by
      rw [advanced_is_filter_valid_fst, hg] <;> simp
    unfold AdvancedOperatorFilterConverter.convert base_convert
    rw [convert_with_invalid_head_filterError AdvancedOperatorFilterConverter.is_filter_valid
      AdvancedOperatorFilterConverter.convert_filter model d [] hval]
    simp
  | true =>
    cases hfo : advanced_field_ok model d with
    | false =>
      have hval : (AdvancedOperatorFilterConverter.is_filter_valid model d).fst = false := by
        rw [advanced_is_filter_valid_fst, hg, hfo] <;> simp
      unfold AdvancedOperatorFilterConverter.convert base_convert
      rw [convert_with_invalid_head_filterError AdvancedOperatorFilterConverter.is_filter_valid
        AdvancedOperatorFilterConverter.convert_filter model d [] hval]
      simp
    | true =>
      have hval : (AdvancedOperatorFilterConverter.is_filter_valid model d).fst = true := by
        rw [advanced_is_filter_valid_fst, hg, hfo] <;> simp
      have hnoerr := advanced_convert_filter_ok_no_filterError model d hg hfo
      unfold AdvancedOperatorFilterConverter.convert base_convert
      rw [convert_with_single_dict_valid AdvancedOperatorFilterConverter.is_filter_valid
        AdvancedOperatorFilterConverter.convert_filter model d hval, hnoerr]
      simp

/-- The split helper never returns an empty list: every base case of
`str.split` produces at least the current (possibly empty) part. -/
theorem split_dunder_aux_ne_nil (n : Nat) (l cur : List Char) (hl : l.length ≤ n) :
    split_dunder_aux cur l ≠ [] := by
  induction n generalizing l cur with
  | zero =>
    have hnil : l = [] := List.length_eq_zero.mp (Nat.le_zero.mp hl)
    subst hnil
    simp [split_dunder_aux]
  | succ n ih =>
    rw [split_dunder_aux.eq_def]
    split
    · simp
    · simp
    · apply ih
      simp at hl
      omega

/-- `split("__")` never returns an empty list. -/
theorem split_dunder_ne_nil (s : String) : split_dunder s ≠ [] :=
  split_dunder_aux_ne_nil s.toList.length s.toList [] (Nat.le_refl _)

/-- Field resolution raises `AttributeError` on failure, never the
filter validation error. -/
theorem get_sqlalchemy_attribute_not_filterError (model : DeclarativeBase) (x : String) :
    isFilterErrorB (get_sqlalchemy_attribute model x) = false := by
  unfold get_sqlalchemy_attribute
  split <;> rfl

/-- No operator function reachable from the Django-like lookup mapping
ever raises `FilterError`: each builds a predicate or raises a
`TypeError`/`AttributeError`. -/
theorem django_mapped_op_never_filterError (lookup : String) (f : OperatorFunc)
    (hl : DjangoLikeFilterConverter.lookup_mapping lookup = Option.some f)
    (a : String) (w : PyVal) : isFilterErrorB (f a w) = false := by
  unfold DjangoLikeFilterConverter.lookup_mapping at hl
  split at hl <;> first
    | exact Option.noConfusion hl
    | (injection hl with hf
       subst hf
       first
         | (cases w <;> rfl)
         | exact between_never_filterError a w
         | exact contains_never_filterError a w
         | (unfold django_isnull; split <;> rfl))

/-- The per-key Django-like translation of a resolvable key (at most
two split parts) never raises `FilterError`: it builds a predicate or
raises `KeyError`/`AttributeError`/`TypeError`. -/
theorem django_convert_resolved_no_filterError (model : DeclarativeBase)
    (x lookup : String) (v : PyVal) :
    isFilterErrorB (DjangoLikeFilterConverter.convert_resolved model x lookup v) = false := by
  unfold DjangoLikeFilterConverter.convert_resolved
  cases hl : DjangoLikeFilterConverter.lookup_mapping lookup with
  | none => rfl
  | some f =>
    cases ha : get_sqlalchemy_attribute model x with
    | error e =>
      have hgna := get_sqlalchemy_attribute_not_filterError model x
      rw [ha] at hgna
      exact (isFilterErrorB_error_congr SQLAlchemyFilter String e).trans hgna
    | ok fld => exact django_mapped_op_never_filterError lookup f hl fld v

/-- The Django-like translation of one key-value pair raises
`FilterError` (the never-situation error) only for a key with more than
two split parts. -/
theorem django_convert_one_no_filterError (model : DeclarativeBase) (k : String)
    (v : PyVal) (h : (split_dunder k).length ≤ 2) :
    isFilterErrorB (DjangoLikeFilterConverter.convert_one model k v) = false := by
  unfold DjangoLikeFilterConverter.convert_one
  cases hs : split_dunder k with
  | nil => exact absurd hs (split_dunder_ne_nil k)
  | cons x tail =>
    cases tail with
    | nil => exact django_convert_resolved_no_filterError model x "exact" v
    | cons y tail2 =>
      cases tail2 with
      | nil => exact django_convert_resolved_no_filterError model x y v
      | cons z tail3 => rw [hs] at h <;> simp at h

/-- When every key of a Django-like filter dict splits into at most two
parts, the direct translation never raises `FilterError`. -/
theorem django_convert_filter_short_keys_no_filterError (model : DeclarativeBase)
    (d : FilterDict) (h : ∀ p ∈ d, (split_dunder p.fst).length ≤ 2) :
    isFilterErrorB (DjangoLikeFilterConverter.convert_filter model d) = false := by
  induction d with
  | nil => rfl
  | cons q rest ih =>
    obtain ⟨k, v⟩ := q
    have hk : (split_dunder k).length ≤ 2 := h (k, v) (by simp)
    have hone := django_convert_one_no_filterError model k v hk
    cases ho : DjangoLikeFilterConverter.convert_one model k v with
    | error e =>
      rw [ho] at hone
      simp only [DjangoLikeFilterConverter.convert_filter, ho]
      exact (isFilterErrorB_error_congr (List SQLAlchemyFilter) SQLAlchemyFilter e).trans hone
    | ok p =>
      have hrest := ih (fun q hq => h q (List.mem_cons_of_mem _ hq))
      cases hr : DjangoLikeFilterConverter.convert_filter model rest with
      | error e2 =>
        rw [hr] at hrest
        simp only [DjangoLikeFilterConverter.convert_filter, ho, hr]
        exact hrest
      | ok ps =>
        simp only [DjangoLikeFilterConverter.convert_filter, ho, hr]
        rfl

/-- The simple translation never raises `FilterError` at all: its only
failure is the `AttributeError` of field resolution. -/
theorem simple_convert_filter_no_filterError (model : DeclarativeBase) (d : FilterDict) :
    isFilterErrorB (SimpleFilterConverter.convert_filter model d) = false := by
  induction d with
  | nil => rfl
  | cons q rest ih =>
    obtain ⟨k, v⟩ := q
    cases ha : get_sqlalchemy_attribute model k with
    | error e =>
      have hgna := get_sqlalchemy_attribute_not_filterError model k
      rw [ha] at hgna
      simp only [SimpleFilterConverter.convert_filter, ha]
      exact (isFilterErrorB_error_congr (List SQLAlchemyFilter) String e).trans hgna
    | ok fld =>
      cases hr : SimpleFilterConverter.convert_filter model rest with
      | error e2 =>
        rw [hr] at ih
        simp only [SimpleFilterConverter.convert_filter, ha, builtin_operator.eq, hr]
        exact ih
      | ok ps =>
        simp only [SimpleFilterConverter.convert_filter, ha, builtin_operator.eq, hr]
        rfl

/-- On a dict passing the guard, the operator tag resolves to a string
whose mapping entry exists and never raises `FilterError`. -/
theorem advanced_operator_selection (d : FilterDict)
    (hg : is_dict_simple_filter_dict d = true) :
    ∃ opstr, AdvancedOperatorFilterConverter.operator_tag d = PyVal.str opstr
      ∧ ∃ f, AdvancedOperatorFilterConverter.lookup_mapping opstr = Option.some f
        ∧ ∀ (a : String) (w : PyVal), isFilterErrorB (f a w) = false := by
  obtain ⟨s, hf, ⟨v, hv⟩, hopcase⟩ := advanced_guard_shape d hg
  rcases hopcase with hnone | ⟨op, ho, hcop⟩
  · refine ⟨"==", ?_, builtin_operator.eq, rfl, fun a w => rfl⟩
    unfold AdvancedOperatorFilterConverter.operator_tag
    rw [hnone]
  · obtain ⟨f, hlook, hnofe⟩ := advanced_mapped_op_never_filterError op hcop
    refine ⟨op, ?_, f, hlook, hnofe⟩
    unfold AdvancedOperatorFilterConverter.operator_tag
    rw [ho]

/-- On a dict passing the guard, the advanced translation never raises
`FilterError`, whether or not the field resolves. -/
theorem advanced_convert_filter_guard_true_no_filterError (model : DeclarativeBase)
    (d : FilterDict) (hg : is_dict_simple_filter_dict d = true) :
    isFilterErrorB (AdvancedOperatorFilterConverter.convert_filter model d) = false := by
  obtain ⟨s, hf, ⟨v, hv⟩, hopcase⟩ := advanced_guard_shape d hg
  obtain ⟨opstr, hosel, f, hlook, hnofe⟩ := advanced_operator_selection d hg
  have happ : isFilterErrorB
      (AdvancedOperatorFilterConverter.apply_operator model d f) = false := by
    unfold AdvancedOperatorFilterConverter.apply_operator
    cases ha : get_sqlalchemy_attribute model s with
    | error e =>
      have hgna := get_sqlalchemy_attribute_not_filterError model s
      rw [ha] at hgna
      simp [hf, ha]
      exact (isFilterErrorB_error_congr (List SQLAlchemyFilter) String e).trans hgna
    | ok fld =>
      rcases hres : f fld v with e | p
      · have hne := hnofe fld v
        rw [hres] at hne
        simp [hf, ha, hv, hres]
        exact (isFilterErrorB_error_congr (List SQLAlchemyFilter) SQLAlchemyFilter e).trans hne
      · simp [hf, ha, hv, hres, isFilterErrorB]
  unfold AdvancedOperatorFilterConverter.convert_filter
  simp [hg, hosel, hlook, happ]

/-- CLAIM C4 (amended): a direct `_convert_filter` call raises the
never-situation `FilterError` only in the structural shapes the
translation rechecks: the advanced strategy raises it exactly when the
map fails the field/value/operator guard, and on a map passing the
guard raises no filter-type error at all; the Django-like strategy
raises it when the leading key splits into more than two parts and
raises no filter-type error when every key splits into at most two
parts (so other validation failures there, such as an unknown lookup,
surface as non-filter errors); the simple strategy never raises a
filter-type error from `_convert_filter`. -/
theorem convert_filter_never_situation_cases (model : DeclarativeBase) (d : FilterDict)
    (k : String) (v : PyVal) (rest : FilterDict) :
    (is_dict_simple_filter_dict d = false →
      AdvancedOperatorFilterConverter.convert_filter model d
        = Except.error (PyError.filterError neverSituationMsg))
  ∧ (is_dict_simple_filter_dict d = true →
      isFilterErrorB (AdvancedOperatorFilterConverter.convert_filter model d) = false)
  ∧ (2 < (split_dunder k).length →
      DjangoLikeFilterConverter.convert_filter model ((k, v) :: rest)
        = Except.error (PyError.filterError neverSituationMsg))
  ∧ ((∀ p ∈ d, (split_dunder p.fst).length ≤ 2) →
      isFilterErrorB (DjangoLikeFilterConverter.convert_filter model d) = false)
  ∧ isFilterErrorB (SimpleFilterConverter.convert_filter model d) = false := by
  refine ⟨?_, ?_, ?_, ?_, ?_⟩
  · intro h
    unfold AdvancedOperatorFilterConverter.convert_filter
    simp [h]
  · intro hg
    exact advanced_convert_filter_guard_true_no_filterError model d hg
  · intro h
    have hone : DjangoLikeFilterConverter.convert_one model k v
        = Except.error (PyError.filterError neverSituationMsg) := by
      unfold DjangoLikeFilterConverter.convert_one
      cases hs : split_dunder k with
      | nil => rfl
      | cons x tail =>
        cases tail with
        | nil => rw [hs] at h; simp at h
        | cons y tail2 =>
          cases tail2 with
          | nil => rw [hs] at h; simp at h
          | cons z tail3 => rfl
    simp [DjangoLikeFilterConverter.convert_filter, hone]
  · intro h
    exact django_convert_filter_short_keys_no_filterError model d h
  · exact simple_convert_filter_no_filterError model d

/-- CLAIM C4 witness: the two concrete never-situation triggers used by
the repository tests, and concrete non-filter-error outcomes for a
guard-passing advanced map, a short-key Django-like map with an unknown
lookup, and a simple map with an unknown field. -/
theorem convert_filter_never_situation_cases_witness :
    AdvancedOperatorFilterConverter.convert_filter MyModel [("abc", PyVal.str "abc")]
      = Except.error (PyError.filterError neverSituationMsg)
  ∧ isFilterErrorB (AdvancedOperatorFilterConverter.convert_filter MyModel
      [("field", PyVal.str "name"), ("value", PyVal.int 1)]) = false
  ∧ DjangoLikeFilterConverter.convert_filter MyModel [("id__hour__gt__abc", PyVal.str "abc")]
      = Except.error (PyError.filterError neverSituationMsg)
  ∧ isFilterErrorB (DjangoLikeFilterConverter.convert_filter MyModel
      [("name__badlookup", PyVal.int 1)]) = false
  ∧ isFilterErrorB (SimpleFilterConverter.convert_filter MyModel
      [("unknown_field", PyVal.int 1)]) = false :=
  ⟨(convert_filter_never_situation_cases MyModel [("abc", PyVal.str "abc")] "x" PyVal.none
      []).1 (by rfl),
   (convert_filter_never_situation_cases MyModel
      [("field", PyVal.str "name"), ("value", PyVal.int 1)] "x" PyVal.none []).2.1 (by rfl),
   (convert_filter_never_situation_cases MyModel [] "id__hour__gt__abc" (PyVal.str "abc")
      []).2.2.1 (by decide),
   (convert_filter_never_situation_cases MyModel [("name__badlookup", PyVal.int 1)] "x"
      PyVal.none []).2.2.2.1
     (by intro p hp; simp at hp; subst hp; decide),
   (convert_filter_never_situation_cases MyModel [("unknown_field", PyVal.int 1)] "x"
      PyVal.none []).2.2.2.2⟩
